import Mathlib

/-!
Verification of the agentic-memory MCP server (Session Core and Protocol Core)
against its specification.  The Rust source under
`crates/agentic-memory-mcp/src` is shallowly embedded: pure functions become
Lean functions, stateful methods become explicit state passing, machine
integers (`u32`, `u64`) become `Nat`, and `f32`/`f64` values become `Rat`
(no claim computes with them).  Fallible operations return `Except`.
External collaborators (the `agentic-memory` graph engine, the filesystem,
the tokio notification channel) are modelled at their interfaces: file
writes and channel capacity are explicit parameters, and engine calls are
either modelled from the specification (doc comments say so) or passed in
as function parameters.
-/

namespace AMem

/-- A minimal JSON value model.  `serde_json::Value` construction is
modelled by this inductive.  `serde_json::to_string_pretty` is injective on
the values the server builds, so rendered text payloads are modelled by the
JSON value itself; the whitespace and escaping details of the Rust pretty
printer are out of scope. -/
inductive JsonVal where
  | str (s : String)
  | num (q : Rat)
  | bool (b : Bool)
  | null
  | arr (xs : List JsonVal)
  | obj (fields : List (String × JsonVal))

/-- Event types of cognitive nodes (engine type `EventType`; the six names
are fixed by the spec and by `EventType::from_name`). -/
inductive EventType where
  | fact
  | decision
  | inference
  | correction
  | skill
  | episode
deriving DecidableEq

/-- Modelled from the spec: `EventType::from_name` of the engine crate maps
the six canonical names to their event types and anything else to `None`. -/
def EventType.fromName : String → Option EventType
  | "fact" => some .fact
  | "decision" => some .decision
  | "inference" => some .inference
  | "correction" => some .correction
  | "skill" => some .skill
  | "episode" => some .episode
  | _ => none

/-- Modelled from the spec: `EventType::name`. -/
def EventType.name : EventType → String
  | .fact => "fact"
  | .decision => "decision"
  | .inference => "inference"
  | .correction => "correction"
  | .skill => "skill"
  | .episode => "episode"

/-- Edge types (engine type `EdgeType`). -/
inductive EdgeType where
  | causedBy
  | supports
  | contradicts
  | supersedes
  | relatedTo
  | partOf
  | temporalNext
deriving DecidableEq

/-- A cognitive node as stored in the graph.  `u64`/`u32` fields are `Nat`,
`f32` fields are `Rat`. -/
structure Node where
  id : Nat
  eventType : EventType
  content : String
  confidence : Rat
  sessionId : Nat
  createdAt : Nat
  accessCount : Nat
  lastAccessed : Nat
  decayScore : Rat
deriving DecidableEq

/-- A graph edge. -/
structure Edge where
  sourceId : Nat
  targetId : Nat
  edgeType : EdgeType
  weight : Rat
deriving DecidableEq

/-- A cognitive event before insertion (what `CognitiveEventBuilder::new(ty,
content).session_id(s).confidence(c).build()` produces; the engine assigns
`id` and timestamps on ingest). -/
structure CognitiveEvent where
  eventType : EventType
  content : String
  confidence : Rat
  sessionId : Nat
deriving DecidableEq

/-- Modelled from the spec: the engine's in-memory graph image.  Node ids
are assigned by the engine, monotonically and never reused (`nextId`). -/
structure MemoryGraph where
  nodes : List Node
  edges : List Edge
  dimension : Nat
  nextId : Nat
deriving DecidableEq

/-- Modelled from the spec: the engine's fixed embedding dimension constant
`DEFAULT_DIMENSION` (exact value immaterial to every claim). -/
def DEFAULT_DIMENSION : Nat := 384

/-- `MemoryGraph::new(dimension)`: an empty graph. -/
def MemoryGraph.new (dimension : Nat) : MemoryGraph :=
  { nodes := [], edges := [], dimension := dimension, nextId := 1 }

/-- `graph.get_node(id)`. -/
def MemoryGraph.getNode (g : MemoryGraph) (id : Nat) : Option Node :=
  g.nodes.find? (fun n => n.id == id)

/-- `graph.node_count()`. -/
def MemoryGraph.nodeCount (g : MemoryGraph) : Nat := g.nodes.length

/-- `graph.edge_count()`. -/
def MemoryGraph.edgeCount (g : MemoryGraph) : Nat := g.edges.length

/-- Modelled from the spec: `graph.session_index().session_ids()` — the
session ids of the nodes in the graph (sessions group nodes by
`session_id`). -/
def MemoryGraph.sessionIds (g : MemoryGraph) : List Nat :=
  g.nodes.map (fun n => n.sessionId)

/-- Modelled from the spec: `graph.session_index().get_session(id)` — ids of
the nodes grouped under session `id`. -/
def MemoryGraph.getSession (g : MemoryGraph) (sid : Nat) : List Nat :=
  (g.nodes.filter (fun n => n.sessionId == sid)).map (fun n => n.id)

/-- Modelled from the spec: `graph.type_index().get(ty)`. -/
def MemoryGraph.typeIndexGet (g : MemoryGraph) (ty : EventType) : List Nat :=
  (g.nodes.filter (fun n => n.eventType == ty)).map (fun n => n.id)

/-- Whether a node with the given id exists. -/
def MemoryGraph.hasNode (g : MemoryGraph) (id : Nat) : Bool :=
  g.nodes.any (fun n => n.id == id)

/-- Modelled from the spec: `graph.add_edge(edge)` — the engine rejects
dangling edges (both endpoints must reference existing nodes), otherwise the
edge is appended. -/
def MemoryGraph.addEdge (g : MemoryGraph) (e : Edge) : Except String MemoryGraph :=
  if g.hasNode e.sourceId && g.hasNode e.targetId then
    Except.ok { g with edges := g.edges ++ [e] }
  else
    Except.error "dangling edge"

/-- Materialize a `CognitiveEvent` into a `Node` with an engine-assigned id.
Timestamps, access counters and decay score are engine-initialized; the
claims never consult them, they are modelled as zero. -/
def CognitiveEvent.toNode (ev : CognitiveEvent) (id : Nat) : Node :=
  { id := id, eventType := ev.eventType, content := ev.content,
    confidence := ev.confidence, sessionId := ev.sessionId,
    createdAt := 0, accessCount := 0, lastAccessed := 0, decayScore := 0 }

/-- Modelled from the spec: `WriteEngine::ingest(graph, events, edges)` —
one atomic batch: ids are assigned monotonically to the events, every edge
must reference an existing or newly created node (the engine rejects
dangling edges), and a rejected batch performs no mutation.  On success the
new node ids are returned. -/
def WriteEngine.ingest (g : MemoryGraph) (events : List CognitiveEvent)
    (edges : List Edge) : Except String (MemoryGraph × List Nat) :=
  let newIds := (List.range events.length).map (fun i => g.nextId + i)
  let newNodes := events.zipWith (fun ev id => ev.toNode id) newIds
  let allNodes := g.nodes ++ newNodes
  let ok (id : Nat) : Bool := allNodes.any (fun n => n.id == id)
  if edges.all (fun e => ok e.sourceId && ok e.targetId) then
    Except.ok
      ({ g with nodes := allNodes, edges := g.edges ++ edges,
                nextId := g.nextId + events.length }, newIds)
  else
    Except.error "batch rejected: dangling edge"

/-- Modelled from the spec: `WriteEngine::correct(graph, old_id, content,
session_id)` — creates a `correction` node in the given session plus a
`supersedes` edge from the new node to the old one; fails if the old node
does not exist. -/
def WriteEngine.correct (g : MemoryGraph) (oldId : Nat) (content : String)
    (sessionId : Nat) : Except String (MemoryGraph × Nat) :=
  if g.hasNode oldId then
    let newId := g.nextId
    let node : Node :=
      { id := newId, eventType := .correction, content := content,
        confidence := 1, sessionId := sessionId, createdAt := 0,
        accessCount := 0, lastAccessed := 0, decayScore := 0 }
    Except.ok
      ({ g with nodes := g.nodes ++ [node],
                edges := g.edges ++ [⟨newId, oldId, .supersedes, 1⟩],
                nextId := g.nextId + 1 }, newId)
  else
    Except.error "node not found"

/-- Modelled from the spec: `WriteEngine::compress_session(graph, sid,
summary)` — writes an `episode` node synthesizing session `sid` (the episode
carries the session id it summarizes) plus `part_of` edges from the
session's nodes. -/
def WriteEngine.compressSession (g : MemoryGraph) (sid : Nat)
    (summary : String) : Except String (MemoryGraph × Nat) :=
  let epId := g.nextId
  let node : Node :=
    { id := epId, eventType := .episode, content := summary,
      confidence := 1, sessionId := sid, createdAt := 0,
      accessCount := 0, lastAccessed := 0, decayScore := 0 }
  let partEdges := (g.getSession sid).map (fun nid => (⟨nid, epId, .partOf, 1⟩ : Edge))
  Except.ok
    ({ g with nodes := g.nodes ++ [node],
              edges := g.edges ++ partEdges,
              nextId := g.nextId + 1 }, epId)

/-- The MCP error taxonomy (`types::McpError`, §7 of the spec). -/
inductive McpError where
  | parseError (msg : String)
  | invalidRequest (msg : String)
  | methodNotFound (msg : String)
  | invalidParams (msg : String)
  | internalError (msg : String)
  | toolNotFound (name : String)
  | resourceNotFound (uri : String)
  | promptNotFound (name : String)
  | nodeNotFound (id : Nat)
  | sessionNotFound (id : Nat)
  | agenticMemory (msg : String)
  | ioError (msg : String)
  | transportError (msg : String)
deriving DecidableEq

/-- `McpResult<T>`. -/
abbrev McpResult (α : Type) := Except McpError α

/-- Whether a result is an `InvalidParams` protocol error. -/
def McpResult.isInvalidParams {α : Type} : McpResult α → Bool
  | .error (.invalidParams _) => true
  | _ => false

/-!
## Session Core (`session/manager.rs`, `session/transaction.rs`)

`SessionManager` holds the graph, the current session id, the dirty flag
and the save bookkeeping.  `Instant`s become `Nat` timestamps supplied by
the caller (`now`); a file write is an external effect whose outcome is the
parameter `writeRes : Option String` (`none` = success, `some e` = the IO
error `e`).  Operations return the new state together with the Rust return
value; operations that can write also return whether a file write was
performed.
-/

/-- `DEFAULT_AUTO_SAVE_SECS`. -/
def DEFAULT_AUTO_SAVE_SECS : Nat := 30

/-- The Session Core state (`SessionManager`).  The `file_path` and the
stateless `QueryEngine`/`WriteEngine` handles carry no verifiable state and
are omitted. -/
structure SessionManager where
  graph : MemoryGraph
  currentSession : Nat
  dirty : Bool
  lastSave : Nat
  autoSaveInterval : Nat
deriving DecidableEq

/-- `session_ids.iter().copied().max().unwrap_or(0) + 1` from
`SessionManager::open` and `start_session`. -/
def MemoryGraph.nextSessionId (g : MemoryGraph) : Nat :=
  (g.sessionIds.max?.getD 0) + 1

/-- `SessionManager::open(path)`: load the graph stored at the path (or
start from an empty graph of the default dimension when the file does not
exist), then assign `current_session` from the existing session ids.
Reading the file is the external codec; its successful outcome is the
`loaded` parameter (`none` = file absent).  A failed read propagates the
codec error and constructs nothing, so it needs no state here. -/
def SessionManager.open (loaded : Option MemoryGraph) (now : Nat) : SessionManager :=
  let graph := loaded.getD (MemoryGraph.new DEFAULT_DIMENSION)
  { graph := graph
    currentSession := graph.nextSessionId
    dirty := false
    lastSave := now
    autoSaveInterval := DEFAULT_AUTO_SAVE_SECS }

/-- `SessionManager::save()`.  Returns the new state, the Rust result, and
whether a file write was performed (the IO the spec speaks about). -/
def SessionManager.save (m : SessionManager) (writeRes : Option String)
    (now : Nat) : SessionManager × McpResult Unit × Bool :=
  if m.dirty = false then
    (m, Except.ok (), false)
  else
    match writeRes with
    | some e =>
        (m, Except.error (.agenticMemory ("Failed to write memory file: " ++ e)), true)
    | none =>
        ({ m with dirty := false, lastSave := now }, Except.ok (), true)

/-- `SessionManager::maybe_auto_save()`. -/
def SessionManager.maybeAutoSave (m : SessionManager) (writeRes : Option String)
    (now : Nat) : SessionManager × McpResult Unit × Bool :=
  if m.dirty = true ∧ m.autoSaveInterval ≤ now - m.lastSave then
    m.save writeRes now
  else
    (m, Except.ok (), false)

/-- `SessionManager::mark_dirty()`. -/
def SessionManager.markDirty (m : SessionManager) : SessionManager :=
  { m with dirty := true }

/-- `SessionManager::start_session(explicit_id)`. -/
def SessionManager.startSession (m : SessionManager) (explicitId : Option Nat) :
    SessionManager × Nat :=
  let sessionId := explicitId.getD m.graph.nextSessionId
  ({ m with currentSession := sessionId }, sessionId)

/-- `SessionManager::end_session_with_episode(session_id, summary)`. -/
def SessionManager.endSessionWithEpisode (m : SessionManager) (sessionId : Nat)
    (summary : String) (writeRes : Option String) (now : Nat) :
    SessionManager × McpResult Nat :=
  match WriteEngine.compressSession m.graph sessionId summary with
  | .error e =>
      (m, Except.error (.agenticMemory ("Failed to compress session: " ++ e)))
  | .ok (g, episodeId) =>
      let m1 := { m with graph := g, dirty := true }
      let saved := m1.save writeRes now
      match saved.2.1 with
      | .error e => (saved.1, Except.error e)
      | .ok _ => (saved.1, Except.ok episodeId)

/-- The edge loop of `SessionManager::add_event`: edges are added one by one
with the new node as source; the `?` on a failing `add_edge` returns early,
keeping the edges added so far. -/
def addEdgesLoop (g : MemoryGraph) (sourceId : Nat) :
    List (Nat × EdgeType × Rat) → Nat → MemoryGraph × McpResult Nat
  | [], count => (g, Except.ok count)
  | (targetId, edgeType, weight) :: rest, count =>
      match g.addEdge ⟨sourceId, targetId, edgeType, weight⟩ with
      | .error e => (g, Except.error (.agenticMemory ("Failed to add edge: " ++ e)))
      | .ok g1 => addEdgesLoop g1 sourceId rest (count + 1)

/-- `SessionManager::add_event(event_type, content, confidence, edges)`. -/
def SessionManager.addEvent (m : SessionManager) (eventType : EventType)
    (content : String) (confidence : Rat) (edges : List (Nat × EdgeType × Rat))
    (writeRes : Option String) (now : Nat) :
    SessionManager × McpResult (Nat × Nat) :=
  let event : CognitiveEvent :=
    { eventType := eventType, content := content, confidence := confidence,
      sessionId := m.currentSession }
  match WriteEngine.ingest m.graph [event] [] with
  | .error e => (m, Except.error (.agenticMemory ("Failed to add event: " ++ e)))
  | .ok (g1, newIds) =>
      match newIds.head? with
      | none =>
          ({ m with graph := g1 },
           Except.error (.internalError "No node ID returned from ingest"))
      | some nodeId =>
          match addEdgesLoop g1 nodeId edges 0 with
          | (g2, .error e) => ({ m with graph := g2 }, Except.error e)
          | (g2, .ok edgeCount) =>
              let m1 := { m with graph := g2, dirty := true }
              let saved := m1.maybeAutoSave writeRes now
              match saved.2.1 with
              | .error e => (saved.1, Except.error e)
              | .ok _ => (saved.1, Except.ok (nodeId, edgeCount))

/-- `SessionManager::correct_node(old_node_id, new_content)`. -/
def SessionManager.correctNode (m : SessionManager) (oldNodeId : Nat)
    (newContent : String) (writeRes : Option String) (now : Nat) :
    SessionManager × McpResult Nat :=
  match WriteEngine.correct m.graph oldNodeId newContent m.currentSession with
  | .error e => (m, Except.error (.agenticMemory ("Failed to correct node: " ++ e)))
  | .ok (g, newId) =>
      let m1 := { m with graph := g, dirty := true }
      let saved := m1.maybeAutoSave writeRes now
      match saved.2.1 with
      | .error e => (saved.1, Except.error e)
      | .ok _ => (saved.1, Except.ok newId)

/-- `Transaction::commit` (`session/transaction.rs`): `ingest` is called on
`self.session.graph_mut()`, which marks the manager dirty *before* the
engine sees the batch; on success `mark_dirty` and a synchronous `save`
follow.  Returns the new state, the Rust result and whether a file write
was performed. -/
def Transaction.commit (m : SessionManager) (events : List CognitiveEvent)
    (edges : List Edge) (writeRes : Option String) (now : Nat) :
    SessionManager × McpResult (List Nat) × Bool :=
  let m1 := m.markDirty
  match WriteEngine.ingest m1.graph events edges with
  | .error e =>
      (m1, Except.error (.agenticMemory ("Transaction commit failed: " ++ e)), false)
  | .ok (g, newIds) =>
      let m2 := { m1 with graph := g }
      let m3 := m2.markDirty
      let saved := m3.save writeRes now
      match saved.2.1 with
      | .error e => (saved.1, Except.error e, saved.2.2)
      | .ok _ => (saved.1, Except.ok newIds, saved.2.2)

/-!
## Protocol Core (`types/capabilities.rs`, `protocol/negotiation.rs`)
-/

/-- `MCP_VERSION`. -/
def MCP_VERSION : String := "2024-11-05"

/-- `SERVER_NAME`. -/
def SERVER_NAME : String := "agentic-memory-mcp"

/-- `SERVER_VERSION` is `env!("CARGO_PKG_VERSION")`; the crate manifest is
not under `src/`, so the version string is fixed arbitrarily (no claim
consults it). -/
def SERVER_VERSION : String := "0.1.0"

/-- `Implementation` (server or client info). -/
structure Implementation where
  name : String
  version : String

/-- `SamplingCapability` marker. -/
structure SamplingCapability where

/-- `RootsCapability`. -/
structure RootsCapability where
  listChanged : Bool

/-- `ClientCapabilities`; the `experimental` map holds opaque JSON. -/
structure ClientCapabilities where
  experimental : Option (List (String × JsonVal)) := none
  sampling : Option SamplingCapability := none
  roots : Option RootsCapability := none

/-- `LoggingCapability` marker. -/
structure LoggingCapability where

/-- `PromptsCapability`. -/
structure PromptsCapability where
  listChanged : Bool

/-- `ResourcesCapability`. -/
structure ResourcesCapability where
  subscribe : Bool
  listChanged : Bool

/-- `ToolsCapability`. -/
structure ToolsCapability where
  listChanged : Bool

/-- `ServerCapabilities`. -/
structure ServerCapabilities where
  experimental : Option (List (String × JsonVal)) := none
  logging : Option LoggingCapability := none
  prompts : Option PromptsCapability := none
  resources : Option ResourcesCapability := none
  tools : Option ToolsCapability := none

/-- `ServerCapabilities::default_capabilities()`. -/
def ServerCapabilities.defaultCapabilities : ServerCapabilities :=
  { experimental := none
    logging := some {}
    prompts := some { listChanged := false }
    resources := some { subscribe := true, listChanged := false }
    tools := some { listChanged := false } }

/-- `InitializeParams` sent by the client. -/
structure InitializeParams where
  protocolVersion : String
  capabilities : ClientCapabilities
  clientInfo : Implementation

/-- `InitializeResult` returned by the server. -/
structure InitializeResult where
  protocolVersion : String
  capabilities : ServerCapabilities
  serverInfo : Implementation
  instructions : Option String

/-- `InitializeResult::default_result()` (instruction text elided). -/
def InitializeResult.defaultResult : InitializeResult :=
  { protocolVersion := MCP_VERSION
    capabilities := ServerCapabilities.defaultCapabilities
    serverInfo := { name := SERVER_NAME, version := SERVER_VERSION }
    instructions := some
      "AgenticMemory MCP server provides persistent cognitive graph memory. Use tools to add, query, traverse, and correct memories. Use resources to browse the memory graph. Use prompts for guided memory operations." }

/-- `NegotiatedCapabilities` (`protocol/negotiation.rs`): the client's
declared capabilities plus the handshake-complete flag. -/
structure NegotiatedCapabilities where
  client : ClientCapabilities
  initialized : Bool

/-- `NegotiatedCapabilities::negotiate(params)`: record the client
capabilities verbatim and answer with the default result.  A differing
protocol version is only logged; the `initialized` flag is untouched. -/
def NegotiatedCapabilities.negotiate (c : NegotiatedCapabilities)
    (params : InitializeParams) :
    NegotiatedCapabilities × McpResult InitializeResult :=
  ({ c with client := params.capabilities },
   Except.ok InitializeResult.defaultResult)

/-- `NegotiatedCapabilities::mark_initialized()`, triggered by the
`initialized` notification. -/
def NegotiatedCapabilities.markInitialized (c : NegotiatedCapabilities) :
    NegotiatedCapabilities × McpResult Unit :=
  ({ c with initialized := true }, Except.ok ())

/-- `NegotiatedCapabilities::ensure_initialized()`. -/
def NegotiatedCapabilities.ensureInitialized (c : NegotiatedCapabilities) :
    McpResult Unit :=
  if c.initialized = false then
    Except.error (.invalidRequest "Server not yet initialized. Send initialize first.")
  else
    Except.ok ()

/-- An incoming request, by method. -/
inductive RequestMethod where
  | initReq (params : InitializeParams)
  | ping
  | other (method : String)

/-- Outcome of handling a request. -/
inductive RpcOutcome where
  | initResult (r : InitializeResult)
  | pong
  | dispatched (method : String)

/-- Modelled from the spec: the request dispatch of the Protocol Core
(`protocol/handler.rs` is not under `src/`).  An `initialize` request runs
`negotiate` and responds with the capabilities; `ping` succeeds in any
state; every other request first passes `ensure_initialized`, and once the
handshake is complete is dispatched to the registries (out of scope here,
represented by `RpcOutcome.dispatched`). -/
def handleRequest (c : NegotiatedCapabilities) :
    RequestMethod → NegotiatedCapabilities × McpResult RpcOutcome
  | .initReq params =>
      let (c1, r) := c.negotiate params
      (c1, r.map RpcOutcome.initResult)
  | .ping => (c, Except.ok RpcOutcome.pong)
  | .other method =>
      match c.ensureInitialized with
      | .error e => (c, Except.error e)
      | .ok _ => (c, Except.ok (RpcOutcome.dispatched method))

/-- Modelled from the spec: the `initialized` notification handler calls
`mark_initialized`; notifications yield no response. -/
def handleInitializedNotification (c : NegotiatedCapabilities) :
    NegotiatedCapabilities :=
  (c.markInitialized).1

/-!
## Resource registry (`resources/registry.rs` and the handlers it calls)
-/

/-- `str::strip_prefix`, on the character lists underlying the strings. -/
def stripPre (p s : String) : Option String :=
  if p.data.isPrefixOf s.data then some ⟨s.data.drop p.data.length⟩ else none

/-- `str::parse::<u64>` / `str::parse::<u32>`, on the character list: an
optional leading `+` sign (which the Rust unsigned parse accepts, exactly
one) followed by a nonempty digit string parses to its decimal value
(machine-width overflow, which the Rust parse would reject, is out of
scope — ids are `Nat`). -/
def parseNat (s : String) : Option Nat :=
  let digits := if s.data.head? = some '+' then s.data.tail else s.data
  if digits ≠ [] ∧ digits.all Char.isDigit then
    some (digits.foldl (fun n c => n * 10 + (c.toNat - 48)) 0)
  else none

/-- `ResourceContent`; the pretty-printed JSON text is modelled by the JSON
value itself (see `JsonVal`). -/
structure ResourceContent where
  uri : String
  mimeType : Option String
  text : Option JsonVal
  blob : Option String

/-- `ReadResourceResult`. -/
structure ReadResourceResult where
  contents : List ResourceContent

/-- A single-entry `application/json` result, the shape every handler
returns. -/
def jsonResource (uri : String) (v : JsonVal) : ReadResourceResult :=
  { contents := [{ uri := uri, mimeType := some "application/json",
                   text := some v, blob := none }] }

/-- Modelled from the spec: `EdgeType::name` of the engine crate. -/
def EdgeType.name : EdgeType → String
  | .causedBy => "caused_by"
  | .supports => "supports"
  | .contradicts => "contradicts"
  | .supersedes => "supersedes"
  | .relatedTo => "related_to"
  | .partOf => "part_of"
  | .temporalNext => "temporal_next"

/-- The JSON view of an edge leaving a node (`resources/node.rs`). -/
def edgeOutJson (e : Edge) : JsonVal :=
  .obj [("target_id", .num e.targetId), ("edge_type", .str e.edgeType.name),
        ("weight", .num e.weight)]

/-- The JSON view of an edge entering a node (`resources/node.rs`). -/
def edgeInJson (e : Edge) : JsonVal :=
  .obj [("source_id", .num e.sourceId), ("edge_type", .str e.edgeType.name),
        ("weight", .num e.weight)]

/-- `graph.edges_from(id)`. -/
def MemoryGraph.edgesFrom (g : MemoryGraph) (id : Nat) : List Edge :=
  g.edges.filter (fun e => e.sourceId == id)

/-- `graph.edges_to(id)`. -/
def MemoryGraph.edgesTo (g : MemoryGraph) (id : Nat) : List Edge :=
  g.edges.filter (fun e => e.targetId == id)

/-- `read_node` (`resources/node.rs`): the node with its outgoing and
incoming edges, or `NodeNotFound`. -/
def readNode (id : Nat) (g : MemoryGraph) : McpResult ReadResourceResult :=
  match g.getNode id with
  | none => Except.error (.nodeNotFound id)
  | some node =>
      Except.ok (jsonResource ("amem://node/" ++ toString id)
        (.obj [("id", .num node.id),
               ("event_type", .str node.eventType.name),
               ("content", .str node.content),
               ("confidence", .num node.confidence),
               ("session_id", .num node.sessionId),
               ("created_at", .num node.createdAt),
               ("access_count", .num node.accessCount),
               ("last_accessed", .num node.lastAccessed),
               ("decay_score", .num node.decayScore),
               ("outgoing_edges", .arr ((g.edgesFrom id).map edgeOutJson)),
               ("incoming_edges", .arr ((g.edgesTo id).map edgeInJson))]))

/-- The per-node JSON entry of `read_session` (`resources/session.rs`). -/
def sessionNodeJson (n : Node) : JsonVal :=
  .obj [("id", .num n.id), ("event_type", .str n.eventType.name),
        ("content", .str n.content), ("confidence", .num n.confidence),
        ("created_at", .num n.createdAt)]

/-- `read_session` (`resources/session.rs`): all nodes of the session, or
`SessionNotFound` when the session index has no entry for it. -/
def readSession (id : Nat) (g : MemoryGraph) : McpResult ReadResourceResult :=
  let nodeIds := g.getSession id
  if nodeIds.isEmpty then
    Except.error (.sessionNotFound id)
  else
    let nodes := nodeIds.filterMap (fun nid => (g.getNode nid).map sessionNodeJson)
    Except.ok (jsonResource ("amem://session/" ++ toString id)
      (.obj [("session_id", .num id), ("node_count", .num nodes.length),
             ("nodes", .arr nodes)]))

/-- The per-node JSON entry of `read_type` (`resources/type_index.rs`). -/
def typeNodeJson (n : Node) : JsonVal :=
  .obj [("id", .num n.id), ("content", .str n.content),
        ("confidence", .num n.confidence), ("session_id", .num n.sessionId),
        ("created_at", .num n.createdAt)]

/-- `read_type` (`resources/type_index.rs`): all nodes of an event type;
an unknown type name is `InvalidParams`. -/
def readType (typeName : String) (g : MemoryGraph) : McpResult ReadResourceResult :=
  match EventType.fromName typeName with
  | none => Except.error (.invalidParams ("Unknown event type: " ++ typeName))
  | some eventType =>
      let nodeIds := g.typeIndexGet eventType
      let nodes := nodeIds.filterMap (fun nid => (g.getNode nid).map typeNodeJson)
      Except.ok (jsonResource ("amem://types/" ++ typeName)
        (.obj [("event_type", .str typeName), ("count", .num nodes.length),
               ("nodes", .arr nodes)]))

/-- `session_index().session_count()`, modelled from the spec as the number
of distinct session ids. -/
def MemoryGraph.sessionCount (g : MemoryGraph) : Nat :=
  g.sessionIds.dedup.length

/-- `read_stats` (`resources/graph.rs`). -/
def readStats (g : MemoryGraph) : McpResult ReadResourceResult :=
  Except.ok (jsonResource "amem://graph/stats"
    (.obj [("node_count", .num g.nodeCount),
           ("edge_count", .num g.edgeCount),
           ("dimension", .num g.dimension),
           ("session_count", .num g.sessionCount),
           ("type_counts", .obj
             [("fact", .num (g.typeIndexGet .fact).length),
              ("decision", .num (g.typeIndexGet .decision).length),
              ("inference", .num (g.typeIndexGet .inference).length),
              ("correction", .num (g.typeIndexGet .correction).length),
              ("skill", .num (g.typeIndexGet .skill).length),
              ("episode", .num (g.typeIndexGet .episode).length)])]))

/-- The per-node JSON entry of `read_recent` (`resources/graph.rs`). -/
def recentNodeJson (n : Node) : JsonVal :=
  .obj [("id", .num n.id), ("event_type", .str n.eventType.name),
        ("content", .str n.content), ("confidence", .num n.confidence),
        ("session_id", .num n.sessionId), ("created_at", .num n.createdAt)]

/-- `temporal_index().most_recent(k)`, modelled from the spec: ids of the
`k` most recently created nodes. -/
def MemoryGraph.mostRecent (g : MemoryGraph) (k : Nat) : List Nat :=
  ((g.nodes.mergeSort (fun a b => decide (b.createdAt ≤ a.createdAt))).take k).map
    (fun n => n.id)

/-- `read_recent` (`resources/graph.rs`). -/
def readRecent (g : MemoryGraph) : McpResult ReadResourceResult :=
  let nodes := (g.mostRecent 20).filterMap (fun nid => (g.getNode nid).map recentNodeJson)
  Except.ok (jsonResource "amem://graph/recent"
    (.obj [("count", .num nodes.length), ("nodes", .arr nodes)]))

/-- The per-node JSON entry of `read_important` (`resources/graph.rs`). -/
def importantNodeJson (n : Node) : JsonVal :=
  .obj [("id", .num n.id), ("event_type", .str n.eventType.name),
        ("content", .str n.content), ("confidence", .num n.confidence),
        ("decay_score", .num n.decayScore), ("session_id", .num n.sessionId)]

/-- `read_important` (`resources/graph.rs`): top 20 nodes by decay score. -/
def readImportant (g : MemoryGraph) : McpResult ReadResourceResult :=
  let ids := ((g.nodes.mergeSort (fun a b => decide (b.decayScore ≤ a.decayScore))).take 20).map
    (fun n => n.id)
  let nodes := ids.filterMap (fun nid => (g.getNode nid).map importantNodeJson)
  Except.ok (jsonResource "amem://graph/important"
    (.obj [("count", .num nodes.length), ("nodes", .arr nodes)]))

/-- `ResourceRegistry::read(uri)` (`resources/registry.rs`): prefix-match
the templates, parse the id, dispatch; concrete URIs are matched exactly;
anything else is `ResourceNotFound`. -/
def ResourceRegistry.read (uri : String) (g : MemoryGraph) :
    McpResult ReadResourceResult :=
  match stripPre "amem://node/" uri with
  | some idStr =>
      match parseNat idStr with
      | none => Except.error (.invalidParams ("Invalid node ID: " ++ idStr))
      | some id => readNode id g
  | none =>
  match stripPre "amem://session/" uri with
  | some idStr =>
      match parseNat idStr with
      | none => Except.error (.invalidParams ("Invalid session ID: " ++ idStr))
      | some id => readSession id g
  | none =>
  match stripPre "amem://types/" uri with
  | some typeName => readType typeName g
  | none =>
  if uri = "amem://graph/stats" then readStats g
  else if uri = "amem://graph/recent" then readRecent g
  else if uri = "amem://graph/important" then readImportant g
  else Except.error (.resourceNotFound uri)

/-!
## Tools (`types/response.rs`, `tools/memory_similar.rs`,
`tools/memory_query.rs`)

The two query tools call the engine's `QueryEngine`; those engine calls are
external collaborators and are passed in as function parameters, so every
theorem below holds for *any* engine behaviour.
-/

/-- `ToolContent` (only the `Text` variant is produced by these tools); the
pretty-printed JSON payload of `ToolCallResult::json` is modelled by the
JSON value itself, a plain message by `JsonVal.str`. -/
inductive ToolContent where
  | text (value : JsonVal)

/-- `ToolCallResult`. -/
structure ToolCallResult where
  content : List ToolContent
  isError : Option Bool

/-- `ToolCallResult::text`. -/
def ToolCallResult.textResult (v : JsonVal) : ToolCallResult :=
  { content := [.text v], isError := none }

/-- `ToolCallResult::json`. -/
def ToolCallResult.json (v : JsonVal) : ToolCallResult :=
  ToolCallResult.textResult v

/-- `ToolCallResult::error`: a success-shaped result with `isError: true`. -/
def ToolCallResult.error (message : String) : ToolCallResult :=
  { content := [.text (.str message)], isError := some true }

/-- The deserialized arguments of `memory_similar` (`SimilarParams`); serde
defaults already applied. -/
structure SimilarParams where
  queryText : Option String
  queryVec : Option (List Rat)
  topK : Nat := 10
  minSimilarity : Rat := 1/2
  eventTypes : List String := []

/-- The engine's `SimilarityParams`. -/
structure SimilarityParams where
  queryVec : List Rat
  topK : Nat
  minSimilarity : Rat
  eventTypes : List EventType
  skipZeroVectors : Bool
deriving DecidableEq

/-- A similarity match returned by the engine. -/
structure SimMatch where
  nodeId : Nat
  similarity : Rat

/-- The per-match JSON entry of `memory_similar`. -/
def simMatchJson (m : SimMatch) (n : Node) : JsonVal :=
  .obj [("node_id", .num m.nodeId), ("similarity", .num m.similarity),
        ("event_type", .str n.eventType.name), ("content", .str n.content),
        ("confidence", .num n.confidence)]

/-- `tools/memory_similar.rs::execute`, after deserialization.  The engine
call `query_engine().similarity(graph, params)` is the parameter
`similarity`. -/
def memorySimilarExecute (params : SimilarParams) (g : MemoryGraph)
    (similarity : MemoryGraph → SimilarityParams → Except String (List SimMatch)) :
    McpResult ToolCallResult :=
  match params.queryVec with
  | some queryVec =>
      let eventTypes := params.eventTypes.filterMap EventType.fromName
      let similarityParams : SimilarityParams :=
        { queryVec := queryVec, topK := params.topK,
          minSimilarity := params.minSimilarity, eventTypes := eventTypes,
          skipZeroVectors := true }
      match similarity g similarityParams with
      | .error e => Except.error (.agenticMemory ("Similarity search failed: " ++ e))
      | .ok results =>
          let matchList := results.filterMap
            (fun m => (g.getNode m.nodeId).map (simMatchJson m))
          Except.ok (ToolCallResult.json
            (.obj [("count", .num matchList.length), ("matches", .arr matchList)]))
  | none =>
      if params.queryText.isSome then
        Except.ok (ToolCallResult.error
          "query_text requires an embedding model. Provide query_vec directly or use memory_query for text-based search.")
      else
        Except.error (.invalidParams "Either query_vec or query_text is required")

/-- The deserialized arguments of `memory_query` (`QueryParams`); serde
defaults already applied. -/
structure QueryParams where
  eventTypes : List String := []
  minConfidence : Option Rat := none
  maxConfidence : Option Rat := none
  sessionIds : List Nat := []
  createdAfter : Option Nat := none
  createdBefore : Option Nat := none
  maxResults : Nat := 20
  sortBy : String := "most_recent"

/-- `PatternSort`. -/
inductive PatternSort where
  | mostRecent
  | highestConfidence
  | mostAccessed
  | mostImportant
deriving DecidableEq

/-- The engine's `PatternParams`. -/
structure PatternParams where
  eventTypes : List EventType
  minConfidence : Option Rat
  maxConfidence : Option Rat
  sessionIds : List Nat
  createdAfter : Option Nat
  createdBefore : Option Nat
  minDecayScore : Option Rat
  maxResults : Nat
  sortBy : PatternSort
deriving DecidableEq

/-- The per-node JSON entry of `memory_query`. -/
def queryNodeJson (n : Node) : JsonVal :=
  .obj [("id", .num n.id), ("event_type", .str n.eventType.name),
        ("content", .str n.content), ("confidence", .num n.confidence),
        ("session_id", .num n.sessionId), ("created_at", .num n.createdAt),
        ("decay_score", .num n.decayScore), ("access_count", .num n.accessCount)]

/-- `tools/memory_query.rs::execute`, after deserialization.  The engine
call `query_engine().pattern(graph, params)` is the parameter `pattern`. -/
def memoryQueryExecute (params : QueryParams) (g : MemoryGraph)
    (pattern : MemoryGraph → PatternParams → Except String (List Node)) :
    McpResult ToolCallResult :=
  let eventTypes := params.eventTypes.filterMap EventType.fromName
  let sortBy :=
    if params.sortBy = "highest_confidence" then PatternSort.highestConfidence
    else if params.sortBy = "most_accessed" then PatternSort.mostAccessed
    else if params.sortBy = "most_important" then PatternSort.mostImportant
    else PatternSort.mostRecent
  let patternParams : PatternParams :=
    { eventTypes := eventTypes, minConfidence := params.minConfidence,
      maxConfidence := params.maxConfidence, sessionIds := params.sessionIds,
      createdAfter := params.createdAfter, createdBefore := params.createdBefore,
      minDecayScore := none, maxResults := params.maxResults, sortBy := sortBy }
  match pattern g patternParams with
  | .error e => Except.error (.agenticMemory ("Pattern query failed: " ++ e))
  | .ok results =>
      let nodes := results.map queryNodeJson
      Except.ok (ToolCallResult.json
        (.obj [("count", .num nodes.length), ("nodes", .arr nodes)]))

/-!
## Progress tracker (`streaming/progress.rs`)

The `HashMap<String, ProgressState>` behind the `RwLock` is modelled as an
association list with replace-on-insert; the bounded tokio notification
channel is modelled by a `channelOpen` flag (a send on a closed channel
fails and the code discards the failure with `let _ =`; a full channel only
suspends the send).
-/

/-- `ProgressState`. -/
structure ProgressState where
  total : Option Rat
  current : Rat
  cancelled : Bool
deriving DecidableEq

/-- The tracker's map of active tokens. -/
abbrev Tracker := List (String × ProgressState)

/-- `HashMap::get`. -/
def Tracker.lookup (m : Tracker) (token : String) : Option ProgressState :=
  List.lookup token m

/-- `HashMap::insert` (replaces any existing entry for the key). -/
def Tracker.insert (m : Tracker) (token : String) (st : ProgressState) : Tracker :=
  (token, st) :: m.filter (fun p => !(p.1 == token))

/-- `HashMap::remove`. -/
def Tracker.remove (m : Tracker) (token : String) : Tracker :=
  m.filter (fun p => !(p.1 == token))

/-- A `notifications/progress` notification payload (`ProgressParams`). -/
structure ProgressNotification where
  progressToken : String
  progress : Rat
  total : Option Rat
deriving DecidableEq

/-- `ProgressTracker::start(total)`: insert a fresh token (the UUID v4 the
Rust code draws is the parameter `token`). -/
def Tracker.startOp (m : Tracker) (token : String) (total : Option Rat) : Tracker :=
  m.insert token { total := total, current := 0, cancelled := false }

/-- `ProgressTracker::update(token, current)`: an unknown token returns
`Ok(())` without touching anything; a tracked token has its `current`
updated and a progress notification is sent on the channel, whose failure
is discarded.  Returns the new map, the notifications that reached the
channel, and the Rust result. -/
def Tracker.update (m : Tracker) (token : String) (current : Rat)
    (channelOpen : Bool) : Tracker × List ProgressNotification × McpResult Unit :=
  match m.lookup token with
  | none => (m, [], Except.ok ())
  | some st =>
      let m1 := m.insert token { st with current := current }
      let notification : ProgressNotification :=
        { progressToken := token, progress := current, total := st.total }
      (m1, if channelOpen then [notification] else [], Except.ok ())

/-- `ProgressTracker::cancel(token)`. -/
def Tracker.cancelOp (m : Tracker) (token : String) : Tracker :=
  match m.lookup token with
  | none => m
  | some st => m.insert token { st with cancelled := true }

/-- `ProgressTracker::complete(token)`. -/
def Tracker.completeOp (m : Tracker) (token : String) : Tracker :=
  m.remove token

/-- `ProgressTracker::is_cancelled(token)`:
`map.get(token).map(|s| s.cancelled).unwrap_or(true)`. -/
def Tracker.isCancelled (m : Tracker) (token : String) : Bool :=
  ((m.lookup token).map (fun s => s.cancelled)).getD true

/-- A tracker operation, for reasoning about sequences of calls. -/
inductive TrackerOp where
  | start (token : String) (total : Option Rat)
  | update (token : String) (current : Rat) (channelOpen : Bool)
  | cancel (token : String)
  | complete (token : String)
deriving DecidableEq

/-- Apply one tracker operation to the map. -/
def Tracker.step (m : Tracker) : TrackerOp → Tracker
  | .start token total => m.startOp token total
  | .update token current channelOpen => (m.update token current channelOpen).1
  | .cancel token => m.cancelOp token
  | .complete token => m.completeOp token

/-- Apply a sequence of tracker operations. -/
def Tracker.run (m : Tracker) (ops : List TrackerOp) : Tracker :=
  ops.foldl Tracker.step m

/-- The operation is neither `cancel` nor `complete` on the given token. -/
def TrackerOp.sparesToken (token : String) : TrackerOp → Prop
  | .cancel t => t ≠ token
  | .complete t => t ≠ token
  | _ => True

instance (token : String) (op : TrackerOp) : Decidable (op.sparesToken token) := by
  cases op <;> simp [TrackerOp.sparesToken] <;> infer_instance

/-!
## Session Core operation sequences (for the session-id invariant)
-/

/-- One mutating call on the Session Core, with the external effects
(write outcome, clock) it observes. -/
inductive SessionOp where
  | addEvent (eventType : EventType) (content : String) (confidence : Rat)
      (edges : List (Nat × EdgeType × Rat)) (writeRes : Option String) (now : Nat)
  | correctNode (oldNodeId : Nat) (newContent : String)
      (writeRes : Option String) (now : Nat)
  | startSession (explicitId : Option Nat)
  | endSession (sessionId : Nat) (summary : String)
      (writeRes : Option String) (now : Nat)
  | save (writeRes : Option String) (now : Nat)
  | autoSave (writeRes : Option String) (now : Nat)

/-- Apply one operation to the Session Core state (return values
discarded). -/
def SessionManager.step (m : SessionManager) : SessionOp → SessionManager
  | .addEvent eventType content confidence edges writeRes now =>
      (m.addEvent eventType content confidence edges writeRes now).1
  | .correctNode oldNodeId newContent writeRes now =>
      (m.correctNode oldNodeId newContent writeRes now).1
  | .startSession explicitId => (m.startSession explicitId).1
  | .endSession sessionId summary writeRes now =>
      (m.endSessionWithEpisode sessionId summary writeRes now).1
  | .save writeRes now => (m.save writeRes now).1
  | .autoSave writeRes now => (m.maybeAutoSave writeRes now).1

/-- Apply a sequence of operations. -/
def SessionManager.run (m : SessionManager) (ops : List SessionOp) : SessionManager :=
  ops.foldl SessionManager.step m

/-- The session-id invariant of the Session Core: `current_session` is ≥
every node's `session_id`. -/
def SessionManager.SInv (m : SessionManager) : Prop :=
  ∀ n ∈ m.graph.nodes, n.sessionId ≤ m.currentSession

/-- Caller-supplied session ids do not undercut the graph: an explicit
`start_session` id must dominate every stored session id, and a session
ended with an episode must not exceed the current session.  (Operations
that allocate their ids internally satisfy this vacuously.) -/
def SessionOp.respectsSessions (m : SessionManager) : SessionOp → Prop
  | .startSession (some k) => ∀ n ∈ m.graph.nodes, n.sessionId ≤ k
  | .endSession sessionId _ _ _ => sessionId ≤ m.currentSession
  | _ => True

/-- Every operation of the trace respects the session ids of the state it
runs in. -/
def OkTrace : SessionManager → List SessionOp → Prop
  | _, [] => True
  | m, op :: rest => op.respectsSessions m ∧ OkTrace (m.step op) rest

/-!
## Helper lemmas
-/

theorem le_foldl_max (as : List Nat) (a x : Nat) (hx : x ≤ a ∨ x ∈ as) :
    x ≤ as.foldl max a := by
  induction as generalizing a with
  | nil =>
      rcases hx with h | h
      · simpa using h
      · cases h
  | cons b bs ih =>
      simp only [List.foldl_cons]
      rcases hx with h | h
      · exact ih (max a b) (Or.inl (le_trans h (le_max_left a b)))
      · rcases List.mem_cons.mp h with rfl | h2
        · exact ih (max a x) (Or.inl (le_max_right a x))
        · exact ih (max a b) (Or.inr h2)

theorem le_max?_getD_of_mem (l : List Nat) (x : Nat) (hx : x ∈ l) :
    x ≤ l.max?.getD 0 := by
  cases l with
  | nil => cases hx
  | cons a as =>
      have h : (a :: as).max? = some (as.foldl max a) := rfl
      rw [h, Option.getD_some]
      rcases List.mem_cons.mp hx with rfl | h2
      · exact le_foldl_max as x x (Or.inl le_rfl)
      · exact le_foldl_max as a x (Or.inr h2)

theorem save_preserves (m : SessionManager) (writeRes : Option String) (now : Nat) :
    ((m.save writeRes now).1).graph = m.graph ∧
    ((m.save writeRes now).1).currentSession = m.currentSession := by
  unfold SessionManager.save
  split
  · exact ⟨rfl, rfl⟩
  · cases writeRes <;> exact ⟨rfl, rfl⟩

theorem maybeAutoSave_preserves (m : SessionManager) (writeRes : Option String)
    (now : Nat) :
    ((m.maybeAutoSave writeRes now).1).graph = m.graph ∧
    ((m.maybeAutoSave writeRes now).1).currentSession = m.currentSession := by
  unfold SessionManager.maybeAutoSave
  split
  · exact save_preserves m writeRes now
  · exact ⟨rfl, rfl⟩

theorem ingest_single (g : MemoryGraph) (ev : CognitiveEvent) :
    WriteEngine.ingest g [ev] [] =
      Except.ok ({ g with nodes := g.nodes ++ [ev.toNode g.nextId],
                          nextId := g.nextId + 1 }, [g.nextId]) := by
  simp [WriteEngine.ingest, List.range_succ]

theorem addEdgesLoop_nodes (es : List (Nat × EdgeType × Rat)) (g : MemoryGraph)
    (src c : Nat) : ((addEdgesLoop g src es c).1).nodes = g.nodes := by
  induction es generalizing g c with
  | nil => rfl
  | cons e rest ih =>
      obtain ⟨t, ty, w⟩ := e
      simp only [addEdgesLoop]
      cases h : g.addEdge ⟨src, t, ty, w⟩ with
      | error e => rfl
      | ok g1 =>
          have hg1 : g1.nodes = g.nodes := by
            unfold MemoryGraph.addEdge at h
            split at h
            · cases h; rfl
            · cases h
          rw [ih g1 (c + 1), hg1]

theorem addEvent_state (m : SessionManager) (eventType : EventType)
    (content : String) (confidence : Rat) (es : List (Nat × EdgeType × Rat))
    (writeRes : Option String) (now : Nat) :
    ((m.addEvent eventType content confidence es writeRes now).1).graph.nodes =
      m.graph.nodes ++
        [(({ eventType := eventType, content := content, confidence := confidence,
             sessionId := m.currentSession } : CognitiveEvent)).toNode m.graph.nextId] ∧
    ((m.addEvent eventType content confidence es writeRes now).1).currentSession =
      m.currentSession := by
  unfold SessionManager.addEvent
  simp only [ingest_single, List.head?_cons]
  constructor
  · split
    next g2 e heq =>
      exact (Eq.trans (addEdgesLoop_nodes es _ m.graph.nextId 0).symm
        (congrArg (fun p => p.1.nodes) heq)).symm
    next g2 c heq =>
      have hg2 := (Eq.trans (addEdgesLoop_nodes es _ m.graph.nextId 0).symm
        (congrArg (fun p => p.1.nodes) heq)).symm
      have hpres := maybeAutoSave_preserves
        ({ m with graph := g2, dirty := true }) writeRes now
      split
      next => rw [hpres.1]; exact hg2
      next => rw [hpres.1]; exact hg2
  · split
    next => rfl
    next g2 c heq =>
      have hpres := maybeAutoSave_preserves
        ({ m with graph := g2, dirty := true }) writeRes now
      split
      next => exact hpres.2
      next => exact hpres.2

theorem correctNode_state (m : SessionManager) (oldId : Nat) (newContent : String)
    (writeRes : Option String) (now : Nat) :
    (((m.correctNode oldId newContent writeRes now).1).graph.nodes = m.graph.nodes ∨
     ((m.correctNode oldId newContent writeRes now).1).graph.nodes =
       m.graph.nodes ++
         [{ id := m.graph.nextId, eventType := .correction, content := newContent,
            confidence := 1, sessionId := m.currentSession, createdAt := 0,
            accessCount := 0, lastAccessed := 0, decayScore := 0 }]) ∧
    ((m.correctNode oldId newContent writeRes now).1).currentSession =
      m.currentSession := by
  unfold SessionManager.correctNode WriteEngine.correct
  constructor
  · split
    next e heq => exact Or.inl rfl
    next g' newId heq =>
      split at heq
      · cases heq
        dsimp only
        split
        next => rw [(maybeAutoSave_preserves _ writeRes now).1]; exact Or.inr rfl
        next => rw [(maybeAutoSave_preserves _ writeRes now).1]; exact Or.inr rfl
      · cases heq
  · split
    next e heq => rfl
    next g' newId heq =>
      split at heq
      · cases heq
        dsimp only
        split
        next => exact (maybeAutoSave_preserves _ writeRes now).2
        next => exact (maybeAutoSave_preserves _ writeRes now).2
      · cases heq

theorem endSession_state (m : SessionManager) (sessionId : Nat) (summary : String)
    (writeRes : Option String) (now : Nat) :
    ((m.endSessionWithEpisode sessionId summary writeRes now).1).graph.nodes =
      m.graph.nodes ++
        [{ id := m.graph.nextId, eventType := .episode, content := summary,
           confidence := 1, sessionId := sessionId, createdAt := 0,
           accessCount := 0, lastAccessed := 0, decayScore := 0 }] ∧
    ((m.endSessionWithEpisode sessionId summary writeRes now).1).currentSession =
      m.currentSession := by
  unfold SessionManager.endSessionWithEpisode WriteEngine.compressSession
  constructor
  · split
    next e heq => simp at heq
    next g' episodeId heq =>
      cases heq
      dsimp only
      split
      next => rw [(save_preserves _ writeRes now).1]
      next => rw [(save_preserves _ writeRes now).1]
  · split
    next e heq => simp at heq
    next g' episodeId heq =>
      cases heq
      dsimp only
      split
      next => exact (save_preserves _ writeRes now).2
      next => exact (save_preserves _ writeRes now).2

theorem open_session_strict (loaded : Option MemoryGraph) (now : Nat) :
    ∀ n ∈ (SessionManager.open loaded now).graph.nodes,
      n.sessionId < (SessionManager.open loaded now).currentSession := by
  intro n hn
  cases loaded with
  | none =>
      simp only [SessionManager.open, Option.getD, MemoryGraph.new] at hn
      cases hn
  | some g =>
      simp only [SessionManager.open, Option.getD] at hn ⊢
      have hx : n.sessionId ∈ g.sessionIds := List.mem_map_of_mem _ hn
      have h := le_max?_getD_of_mem _ _ hx
      simp only [MemoryGraph.nextSessionId]
      omega

theorem step_preserves_SInv (m : SessionManager) (op : SessionOp)
    (hInv : m.SInv) (hop : op.respectsSessions m) : (m.step op).SInv := by
  cases op with
  | addEvent eventType content confidence es writeRes now =>
      intro n hn
      have h := addEvent_state m eventType content confidence es writeRes now
      simp only [SessionManager.step] at hn ⊢
      rw [h.1] at hn
      rw [h.2]
      rcases List.mem_append.mp hn with h1 | h2
      · exact hInv n h1
      · rcases List.mem_singleton.mp h2 with rfl
        exact le_rfl
  | correctNode oldId newContent writeRes now =>
      intro n hn
      have h := correctNode_state m oldId newContent writeRes now
      simp only [SessionManager.step] at hn ⊢
      rw [h.2]
      rcases h.1 with h1 | h1
      · rw [h1] at hn
        exact hInv n hn
      · rw [h1] at hn
        rcases List.mem_append.mp hn with h2 | h2
        · exact hInv n h2
        · rcases List.mem_singleton.mp h2 with rfl
          exact le_rfl
  | startSession explicitId =>
      intro n hn
      simp only [SessionManager.step, SessionManager.startSession] at hn ⊢
      cases explicitId with
      | none =>
          simp only [Option.getD]
          have hx : n.sessionId ∈ m.graph.sessionIds := List.mem_map_of_mem _ hn
          have h := le_max?_getD_of_mem _ _ hx
          simp only [MemoryGraph.nextSessionId]
          omega
      | some k =>
          simp only [Option.getD]
          exact hop n hn
  | endSession sessionId summary writeRes now =>
      intro n hn
      have h := endSession_state m sessionId summary writeRes now
      simp only [SessionManager.step] at hn ⊢
      rw [h.1] at hn
      rw [h.2]
      rcases List.mem_append.mp hn with h1 | h1
      · exact hInv n h1
      · rcases List.mem_singleton.mp h1 with rfl
        exact hop
  | save writeRes now =>
      intro n hn
      simp only [SessionManager.step] at hn ⊢
      rw [(save_preserves m writeRes now).1] at hn
      rw [(save_preserves m writeRes now).2]
      exact hInv n hn
  | autoSave writeRes now =>
      intro n hn
      simp only [SessionManager.step] at hn ⊢
      rw [(maybeAutoSave_preserves m writeRes now).1] at hn
      rw [(maybeAutoSave_preserves m writeRes now).2]
      exact hInv n hn

theorem run_preserves_SInv (ops : List SessionOp) :
    ∀ m : SessionManager, m.SInv → OkTrace m ops → (m.run ops).SInv := by
  induction ops with
  | nil => intro m h _; exact h
  | cons op rest ih =>
      intro m h htr
      exact ih (m.step op) (step_preserves_SInv m op h htr.1) htr.2

/-!
## Claims
-/

/-- C1 (amended): when the engine rejects the batch, `Transaction::commit`
returns an error, performs no save, and leaves the graph contents (and
`last_save`) exactly as before — but the dirty flag has already been set to
`true` by `graph_mut()` before the engine saw the batch, so the observable
state is not fully unchanged.  When ingest succeeds and the file write
succeeds, commit marks the session dirty, performs a synchronous save
(clearing the flag and advancing `last_save`), and returns the allocated
node ids. -/
theorem c1_transaction_commit (m : SessionManager) (events : List CognitiveEvent)
    (edges : List Edge) (writeRes : Option String) (now : Nat) :
    (∀ e, WriteEngine.ingest m.graph events edges = Except.error e →
      Transaction.commit m events edges writeRes now =
        ({ m with dirty := true },
         Except.error (.agenticMemory ("Transaction commit failed: " ++ e)), false)) ∧
    (∀ g newIds, WriteEngine.ingest m.graph events edges = Except.ok (g, newIds) →
      Transaction.commit m events edges none now =
        ({ m with graph := g, dirty := false, lastSave := now },
         Except.ok newIds, true)) := by
  constructor
  · intro e he
    unfold Transaction.commit SessionManager.markDirty
    dsimp only
    rw [he]
  · intro g newIds he
    unfold Transaction.commit SessionManager.markDirty
    dsimp only
    rw [he]
    dsimp only
    unfold SessionManager.save
    simp

/-- Witness for C1: a batch with a dangling edge on a freshly opened
session is rejected and commit surfaces the engine error without saving. -/
theorem c1_transaction_commit_witness :
    Transaction.commit (SessionManager.open none 0) []
        [⟨0, 0, .relatedTo, 1⟩] none 5 =
      ({ SessionManager.open none 0 with dirty := true },
       Except.error (.agenticMemory
         ("Transaction commit failed: " ++ "batch rejected: dangling edge")), false) :=
  (c1_transaction_commit (SessionManager.open none 0) []
    [⟨0, 0, .relatedTo, 1⟩] none 5).1 "batch rejected: dangling edge" rfl

/-- Counterexample for C1 as stated: on a clean (non-dirty) session, a
commit whose batch the engine rejects returns an error, yet the dirty flag
observably changes from `false` to `true`, so the Session Core state is not
"left exactly as it was before the commit". -/
theorem c1_transaction_commit_counterexample :
    (SessionManager.open none 0).dirty = false ∧
    (Transaction.commit (SessionManager.open none 0) []
        [⟨0, 0, .relatedTo, 1⟩] none 5).1.dirty = true ∧
    (Transaction.commit (SessionManager.open none 0) []
        [⟨0, 0, .relatedTo, 1⟩] none 5).2.1 =
      Except.error (.agenticMemory
        ("Transaction commit failed: " ++ "batch rejected: dangling edge")) := by
  refine ⟨rfl, rfl, rfl⟩

/-- C2 (confirmed): while the handshake is incomplete, any request other
than `initialize`/`ping` is rejected with `InvalidRequest`; `negotiate`
(and hence handling an `initialize` request) leaves the `initialized` flag
untouched; `ping` succeeds in any state; only `mark_initialized` makes
`ensure_initialized` succeed. -/
theorem c2_handshake_gate (c : NegotiatedCapabilities) (method : String)
    (params : InitializeParams) :
    (c.initialized = false →
      handleRequest c (.other method) =
        (c, Except.error (.invalidRequest
          "Server not yet initialized. Send initialize first."))) ∧
    ((c.negotiate params).1.initialized = c.initialized) ∧
    ((handleRequest c (.initReq params)).1.initialized = c.initialized) ∧
    (handleRequest c .ping = (c, Except.ok RpcOutcome.pong)) ∧
    (((c.markInitialized).1).ensureInitialized = Except.ok ()) ∧
    (c.ensureInitialized = Except.ok () ↔ c.initialized = true) := by
  refine ⟨?_, rfl, rfl, rfl, rfl, ?_⟩
  · intro h
    unfold handleRequest NegotiatedCapabilities.ensureInitialized
    simp [h]
  · unfold NegotiatedCapabilities.ensureInitialized
    cases hc : c.initialized <;> simp [hc]

/-- Witness for C2: `tools/list` before the `initialized` notification is
rejected with `InvalidRequest`. -/
theorem c2_handshake_gate_witness :
    handleRequest { client := {}, initialized := false } (.other "tools/list") =
      ({ client := {}, initialized := false },
       Except.error (.invalidRequest
         "Server not yet initialized. Send initialize first.")) :=
  (c2_handshake_gate { client := {}, initialized := false } "tools/list"
    { protocolVersion := "2024-11-05", capabilities := {},
      clientInfo := { name := "client", version := "1" } }).1 rfl

/-- C3 (confirmed): `save()` is a no-op when not dirty; a failed file write
returns an error with `dirty` still true and `last_save` unchanged; a
successful write clears `dirty` and advances `last_save`; and a `save()`
right after a save that returned `Ok` performs no IO. -/
theorem c3_save_policy (m : SessionManager) (writeRes writeRes2 : Option String)
    (e : String) (now now2 : Nat) :
    (m.dirty = false → m.save writeRes now = (m, Except.ok (), false)) ∧
    (m.dirty = true → m.save (some e) now =
      (m, Except.error (.agenticMemory ("Failed to write memory file: " ++ e)),
       true)) ∧
    (m.dirty = true → m.save none now =
      ({ m with dirty := false, lastSave := now }, Except.ok (), true)) ∧
    ((m.save writeRes now).2.1 = Except.ok () →
      ((m.save writeRes now).1).save writeRes2 now2 =
        ((m.save writeRes now).1, Except.ok (), false)) := by
  refine ⟨?_, ?_, ?_, ?_⟩
  · intro h; unfold SessionManager.save; simp [h]
  · intro h; unfold SessionManager.save; simp [h]
  · intro h; unfold SessionManager.save; simp [h]
  · intro h
    by_cases hd : m.dirty = false
    · have h1 : m.save writeRes now = (m, Except.ok (), false) := by
        unfold SessionManager.save; simp [hd]
      rw [h1]
      unfold SessionManager.save; simp [hd]
    · have hd2 : m.dirty = true := by revert hd; cases m.dirty <;> simp
      cases writeRes with
      | some e2 =>
          have h1 : m.save (some e2) now =
              (m, Except.error
                (.agenticMemory ("Failed to write memory file: " ++ e2)), true) := by
            unfold SessionManager.save; simp [hd2]
          rw [h1] at h
          cases h
      | none =>
          have h1 : m.save none now =
              ({ m with dirty := false, lastSave := now }, Except.ok (), true) := by
            unfold SessionManager.save; simp [hd2]
          rw [h1]
          unfold SessionManager.save
          simp

/-- Witness for C3: a successful save on a dirty session clears the flag,
advances `last_save` and performs exactly one write. -/
theorem c3_save_policy_witness :
    ({ SessionManager.open none 0 with dirty := true } : SessionManager).save none 7 =
      ({ SessionManager.open none 0 with dirty := false, lastSave := 7 },
       Except.ok (), true) :=
  (c3_save_policy { SessionManager.open none 0 with dirty := true }
    none none "" 7 0).2.2.1 rfl

/-- C4 (amended): in `ResourceRegistry::read`, a recognized template prefix
with an unparsable id yields `InvalidParams` (likewise an unknown type name
under `amem://types/`), and a well-formed URI naming a nonexistent entity
yields the matching NotFound kind (`NodeNotFound`, `SessionNotFound`) — but
a URI matching no recognized `amem://` form (including a foreign scheme)
yields `ResourceNotFound`, not `InvalidParams` as claimed. -/
theorem c4_resource_read (g : MemoryGraph) (uri idStr typeName : String)
    (id sid : Nat) :
    (stripPre "amem://node/" uri = none → stripPre "amem://session/" uri = none →
     stripPre "amem://types/" uri = none → uri ≠ "amem://graph/stats" →
     uri ≠ "amem://graph/recent" → uri ≠ "amem://graph/important" →
      ResourceRegistry.read uri g = Except.error (.resourceNotFound uri)) ∧
    (stripPre "amem://node/" uri = some idStr → parseNat idStr = none →
      ResourceRegistry.read uri g =
        Except.error (.invalidParams ("Invalid node ID: " ++ idStr))) ∧
    (stripPre "amem://node/" uri = none →
     stripPre "amem://session/" uri = some idStr → parseNat idStr = none →
      ResourceRegistry.read uri g =
        Except.error (.invalidParams ("Invalid session ID: " ++ idStr))) ∧
    (stripPre "amem://node/" uri = none → stripPre "amem://session/" uri = none →
     stripPre "amem://types/" uri = some typeName →
     EventType.fromName typeName = none →
      ResourceRegistry.read uri g =
        Except.error (.invalidParams ("Unknown event type: " ++ typeName))) ∧
    (stripPre "amem://node/" uri = some idStr → parseNat idStr = some id →
     g.getNode id = none →
      ResourceRegistry.read uri g = Except.error (.nodeNotFound id)) ∧
    (stripPre "amem://node/" uri = none →
     stripPre "amem://session/" uri = some idStr → parseNat idStr = some sid →
     g.getSession sid = [] →
      ResourceRegistry.read uri g = Except.error (.sessionNotFound sid)) := by
  refine ⟨?_, ?_, ?_, ?_, ?_, ?_⟩
  · intro h1 h2 h3 h4 h5 h6
    unfold ResourceRegistry.read
    simp only [h1, h2, h3]
    rw [if_neg h4, if_neg h5, if_neg h6]
  · intro h1 h2
    unfold ResourceRegistry.read
    simp only [h1, h2]
  · intro h1 h2 h3
    unfold ResourceRegistry.read
    simp only [h1, h2, h3]
  · intro h1 h2 h3 h4
    unfold ResourceRegistry.read readType
    simp only [h1, h2, h3, h4]
  · intro h1 h2 h3
    unfold ResourceRegistry.read readNode
    simp only [h1, h2, h3]
  · intro h1 h2 h3 h4
    unfold ResourceRegistry.read readSession
    simp only [h1, h2, h3, h4]
    simp

/-- Witness for C4: `amem://node/abc` has the node template prefix but an
unparsable id, so the read is rejected with `InvalidParams`. -/
theorem c4_resource_read_witness :
    ResourceRegistry.read "amem://node/abc" (MemoryGraph.new 4) =
      Except.error (.invalidParams ("Invalid node ID: " ++ "abc")) :=
  (c4_resource_read (MemoryGraph.new 4) "amem://node/abc" "abc" "" 0 0).2.1 rfl rfl

/-- Counterexample for C4 as stated: a URI with an unknown scheme is
answered with `ResourceNotFound`, not with the claimed `InvalidParams`. -/
theorem c4_resource_read_counterexample :
    ResourceRegistry.read "http://example.com" (MemoryGraph.new 4) =
      Except.error (.resourceNotFound "http://example.com") ∧
    McpResult.isInvalidParams
      (ResourceRegistry.read "http://example.com" (MemoryGraph.new 4)) = false := by
  refine ⟨rfl, rfl⟩

/-- C5 (confirmed): `SessionManager::open` assigns
`current_session = max(existing session ids) + 1`, or `1` when the graph
has no sessions (including the fresh-file case), and immediately after
`open` the current session strictly dominates the `session_id` of every
node in the graph. -/
theorem c5_open_allocation (g : MemoryGraph) (now : Nat) :
    ((SessionManager.open (some g) now).currentSession =
      g.sessionIds.max?.getD 0 + 1) ∧
    (g.nodes = [] → (SessionManager.open (some g) now).currentSession = 1) ∧
    ((SessionManager.open none now).currentSession = 1) ∧
    (∀ n ∈ g.nodes,
      n.sessionId < (SessionManager.open (some g) now).currentSession) := by
  refine ⟨rfl, ?_, rfl, ?_⟩
  · intro h
    unfold SessionManager.open MemoryGraph.nextSessionId MemoryGraph.sessionIds
    simp [h]
  · intro n hn
    exact open_session_strict (some g) now n hn

/-- Witness for C5: a graph whose only node lives in session 7 opens with
`current_session = 8 > 7`. -/
theorem c5_open_allocation_witness :
    (7 : Nat) < (SessionManager.open (some
      { nodes := [{ id := 1, eventType := .fact, content := "x", confidence := 1,
                    sessionId := 7, createdAt := 0, accessCount := 0,
                    lastAccessed := 0, decayScore := 0 }],
        edges := [], dimension := 4, nextId := 2 }) 0).currentSession :=
  (c5_open_allocation
    { nodes := [{ id := 1, eventType := .fact, content := "x", confidence := 1,
                  sessionId := 7, createdAt := 0, accessCount := 0,
                  lastAccessed := 0, decayScore := 0 }],
      edges := [], dimension := 4, nextId := 2 } 0).2.2.2 _
    (List.mem_singleton.mpr rfl)

/-- C6 (amended): `current_session ≥ node.session_id` for every node holds
for every state reached from `open` by a sequence of operations in which
every caller-supplied session id respects the session ids already in the
graph (an explicit `start_session` id dominates all stored session ids; a
session ended with an episode does not exceed the current session) — the
unrestricted claim fails because `start_session` accepts an arbitrary
explicit id. -/
theorem c6_session_invariant (loaded : Option MemoryGraph) (now : Nat)
    (ops : List SessionOp)
    (hops : OkTrace (SessionManager.open loaded now) ops) :
    ((SessionManager.open loaded now).run ops).SInv := by
  refine run_preserves_SInv ops _ ?_ hops
  intro n hn
  exact le_of_lt (open_session_strict loaded now n hn)

/-- Witness for C6: opening a fresh file, adding an event, starting a new
session without an explicit id and saving keeps the invariant. -/
theorem c6_session_invariant_witness :
    ((SessionManager.open none 0).run
      [SessionOp.addEvent .fact "a" 1 [] none 0,
       SessionOp.startSession none,
       SessionOp.save none 40]).SInv :=
  c6_session_invariant none 0
    [SessionOp.addEvent .fact "a" 1 [] none 0,
     SessionOp.startSession none,
     SessionOp.save none 40]
    ⟨trivial, trivial, trivial, trivial⟩

/-- Counterexample for C6 as stated: after adding a node in session 1,
`start_session(Some 0)` sets `current_session = 0`, strictly below the
stored node's `session_id = 1` — the invariant is violated by an explicit
session id. -/
theorem c6_session_invariant_counterexample :
    ((SessionManager.open none 0).run
      [SessionOp.addEvent .fact "a" 1 [] none 0,
       SessionOp.startSession (some 0)]).currentSession = 0 ∧
    (((SessionManager.open none 0).run
      [SessionOp.addEvent .fact "a" 1 [] none 0,
       SessionOp.startSession (some 0)]).graph.nodes.map
        (fun n => n.sessionId)) = [1] := by
  refine ⟨rfl, rfl⟩

/-- C7 (confirmed): `memory_similar` with `query_text` but no `query_vec`
returns a success-shaped `ToolCallResult` with `isError = true` and a text
describing the embedding-model constraint; with neither argument it fails
with the `InvalidParams` protocol error. -/
theorem c7_memory_similar (p : SimilarParams) (g : MemoryGraph)
    (similarity : MemoryGraph → SimilarityParams → Except String (List SimMatch)) :
    (p.queryVec = none → p.queryText.isSome = true →
      memorySimilarExecute p g similarity =
        Except.ok { content := [.text (.str "query_text requires an embedding model. Provide query_vec directly or use memory_query for text-based search.")],
                    isError := some true }) ∧
    (p.queryVec = none → p.queryText = none →
      memorySimilarExecute p g similarity =
        Except.error (.invalidParams "Either query_vec or query_text is required")) := by
  constructor
  · intro hv ht
    unfold memorySimilarExecute
    simp only [hv, ht]
    rfl
  · intro hv ht
    unfold memorySimilarExecute
    simp only [hv, ht]
    rfl

/-- Witness for C7: `query_text` alone yields the tool-level error result. -/
theorem c7_memory_similar_witness :
    memorySimilarExecute { queryText := some "hi", queryVec := none }
        (MemoryGraph.new 4) (fun _ _ => Except.ok []) =
      Except.ok { content := [.text (.str "query_text requires an embedding model. Provide query_vec directly or use memory_query for text-based search.")],
                  isError := some true } :=
  (c7_memory_similar { queryText := some "hi", queryVec := none }
    (MemoryGraph.new 4) (fun _ _ => Except.ok [])).1 rfl rfl

/-- C9 (confirmed): unrecognized names in `event_types` are silently
dropped by the `filter_map(EventType::from_name)` of `memory_query` and
`memory_similar`, so an array of only unrecognized names behaves exactly
like an empty filter, for any engine behaviour; and `memory_query` never
fails with `InvalidParams` after deserialization. -/
theorem c9_event_type_filter (p : QueryParams) (q : SimilarParams)
    (g : MemoryGraph)
    (pattern : MemoryGraph → PatternParams → Except String (List Node))
    (similarity : MemoryGraph → SimilarityParams → Except String (List SimMatch)) :
    ((∀ nm ∈ p.eventTypes, EventType.fromName nm = none) →
      memoryQueryExecute p g pattern =
        memoryQueryExecute { p with eventTypes := [] } g pattern) ∧
    ((∀ nm ∈ q.eventTypes, EventType.fromName nm = none) →
      memorySimilarExecute q g similarity =
        memorySimilarExecute { q with eventTypes := [] } g similarity) ∧
    (McpResult.isInvalidParams (memoryQueryExecute p g pattern) = false) := by
  refine ⟨?_, ?_, ?_⟩
  · intro h
    have h1 : p.eventTypes.filterMap EventType.fromName = [] :=
      List.filterMap_eq_nil_iff.mpr h
    unfold memoryQueryExecute
    dsimp only
    rw [h1]
    rfl
  · intro h
    have h1 : q.eventTypes.filterMap EventType.fromName = [] :=
      List.filterMap_eq_nil_iff.mpr h
    unfold memorySimilarExecute
    dsimp only
    rw [h1]
    rfl
  · unfold memoryQueryExecute
    dsimp only
    split
    next e heq => rfl
    next res heq => rfl

/-- Witness for C9: a filter of only the unrecognized name `"bogus"`
behaves exactly like no filter. -/
theorem c9_event_type_filter_witness :
    memoryQueryExecute { eventTypes := ["bogus"] } (MemoryGraph.new 4)
        (fun _ _ => Except.ok []) =
      memoryQueryExecute {} (MemoryGraph.new 4) (fun _ _ => Except.ok []) :=
  (c9_event_type_filter { eventTypes := ["bogus"] }
    { queryText := none, queryVec := none } (MemoryGraph.new 4)
    (fun _ _ => Except.ok []) (fun _ _ => Except.ok [])).1 (by decide)

theorem lookup_filter_ne (m : Tracker) (k t : String) (h : t ≠ k) :
    List.lookup t (m.filter (fun p => !(p.1 == k))) = List.lookup t m := by
  induction m with
  | nil => rfl
  | cons a rest ih =>
      obtain ⟨k1, v1⟩ := a
      simp only [List.filter_cons]
      by_cases h1 : k1 = k
      · subst h1
        simp only [beq_self_eq_true, Bool.not_true, Bool.false_eq_true,
          if_false, ih]
        have ht : (t == k1) = false := beq_eq_false_iff_ne.mpr h
        simp [List.lookup, ht]
      · have hcond : (!(k1 == k)) = true := by
          simp [beq_eq_false_iff_ne.mpr h1]
        simp only [hcond, if_true]
        by_cases h2 : t = k1
        · subst h2
          simp [List.lookup]
        · have ht : (t == k1) = false := beq_eq_false_iff_ne.mpr h2
          simp [List.lookup, ht, ih]

theorem lookup_filter_self (m : Tracker) (k : String) :
    List.lookup k (m.filter (fun p => !(p.1 == k))) = none := by
  induction m with
  | nil => rfl
  | cons a rest ih =>
      obtain ⟨k1, v1⟩ := a
      simp only [List.filter_cons]
      by_cases h1 : k1 = k
      · subst h1
        simp [ih]
      · have hcond : (!(k1 == k)) = true := by
          simp [beq_eq_false_iff_ne.mpr h1]
        have hk : (k == k1) = false :=
          beq_eq_false_iff_ne.mpr (fun hh => h1 hh.symm)
        simp [hcond, List.lookup, hk, ih]

theorem Tracker.lookup_insert (m : Tracker) (k t : String) (v : ProgressState) :
    (m.insert k v).lookup t = if t = k then some v else m.lookup t := by
  unfold Tracker.insert Tracker.lookup
  by_cases h : t = k
  · subst h
    simp [List.lookup]
  · simp [List.lookup, beq_eq_false_iff_ne.mpr h, h, lookup_filter_ne m k t h]

theorem Tracker.lookup_remove (m : Tracker) (k t : String) :
    (m.remove k).lookup t = if t = k then none else m.lookup t := by
  unfold Tracker.remove Tracker.lookup
  by_cases h : t = k
  · subst h
    simp [lookup_filter_self m t]
  · simp [h, lookup_filter_ne m k t h]

theorem step_preserves_uncancelled (m : Tracker) (op : TrackerOp) (token : String)
    (hop : op.sparesToken token)
    (h : ∃ st, m.lookup token = some st ∧ st.cancelled = false) :
    ∃ st, (m.step op).lookup token = some st ∧ st.cancelled = false := by
  obtain ⟨st0, hl, hc⟩ := h
  cases op with
  | start tok total =>
      simp only [Tracker.step, Tracker.startOp]
      rw [Tracker.lookup_insert]
      by_cases h1 : token = tok
      · simp [h1]
      · simp only [h1, if_false]
        exact ⟨st0, hl, hc⟩
  | update tok cur channelOpen =>
      simp only [Tracker.step, Tracker.update]
      split
      next heq =>
          exact ⟨st0, hl, hc⟩
      next st1 heq =>
          dsimp only
          rw [Tracker.lookup_insert]
          by_cases h1 : token = tok
          · subst h1
            rw [hl] at heq
            cases heq
            exact ⟨{ st0 with current := cur }, by simp, hc⟩
          · simp only [h1, if_false]
            exact ⟨st0, hl, hc⟩
  | cancel tok =>
      have hne : token ≠ tok := fun hh => hop (hh ▸ rfl)
      simp only [Tracker.step, Tracker.cancelOp]
      split
      next heq => exact ⟨st0, hl, hc⟩
      next st1 heq =>
          rw [Tracker.lookup_insert]
          simp only [hne, if_false]
          exact ⟨st0, hl, hc⟩
  | complete tok =>
      have hne : token ≠ tok := fun hh => hop (hh ▸ rfl)
      simp only [Tracker.step, Tracker.completeOp]
      rw [Tracker.lookup_remove]
      simp only [hne, if_false]
      exact ⟨st0, hl, hc⟩

theorem run_preserves_uncancelled (ops : List TrackerOp) :
    ∀ m : Tracker, ∀ token : String, (∀ op ∈ ops, op.sparesToken token) →
    (∃ st, m.lookup token = some st ∧ st.cancelled = false) →
    ∃ st, (m.run ops).lookup token = some st ∧ st.cancelled = false := by
  induction ops with
  | nil => intro m token _ h; exact h
  | cons op rest ih =>
      intro m token hops h
      exact ih (m.step op) token (fun o ho => hops o (List.mem_cons_of_mem op ho))
        (step_preserves_uncancelled m op token (hops op (List.mem_cons_self op rest)) h)

/-- C8 (confirmed): `is_cancelled(token)` is true exactly when the token is
absent from the map (never started, or removed by `complete`) or its
cancelled flag was set by `cancel`; after `start`, any sequence of tracker
operations containing neither `cancel` nor `complete` on that token leaves
`is_cancelled(token) = false`. -/
theorem c8_is_cancelled (m : Tracker) (token freshTok : String)
    (total : Option Rat) (ops : List TrackerOp) :
    (m.isCancelled token = true ↔
      m.lookup token = none ∨
        ∃ st, m.lookup token = some st ∧ st.cancelled = true) ∧
    ((∀ op ∈ ops, op.sparesToken freshTok) →
      ((m.startOp freshTok total).run ops).isCancelled freshTok = false) := by
  constructor
  · unfold Tracker.isCancelled
    cases hlk : m.lookup token with
    | none => simp
    | some st => simp [hlk]
  · intro hops
    have h0 : ∃ st, (m.startOp freshTok total).lookup freshTok = some st ∧
        st.cancelled = false := by
      refine ⟨{ total := total, current := 0, cancelled := false }, ?_, rfl⟩
      unfold Tracker.startOp
      rw [Tracker.lookup_insert]
      simp
    obtain ⟨st, hl, hc⟩ :=
      run_preserves_uncancelled ops (m.startOp freshTok total) freshTok hops h0
    unfold Tracker.isCancelled
    rw [hl]
    simp [hc]

/-- Witness for C8: a started token that is updated while other tokens
come and go is not cancelled. -/
theorem c8_is_cancelled_witness :
    ((Tracker.startOp [] "t" none).run
      [TrackerOp.update "t" 5 true, TrackerOp.start "u" none,
       TrackerOp.complete "u"]).isCancelled "t" = false :=
  (c8_is_cancelled [] "t" "t" none
    [TrackerOp.update "t" 5 true, TrackerOp.start "u" none,
     TrackerOp.complete "u"]).2 (by decide)

/-- C10 (confirmed): `update` on an unknown token returns `Ok(())`, sends
nothing and leaves the map unchanged; `update` always returns `Ok(())`
regardless of the channel's state; a progress notification is produced only
when the token is currently tracked, in which case the entry's `current` is
updated and the `notifications/progress` payload carries the token, the new
progress and the stored total. -/
theorem c10_progress_update (m : Tracker) (token : String) (current : Rat)
    (channelOpen : Bool) :
    (m.lookup token = none →
      m.update token current channelOpen = (m, [], Except.ok ())) ∧
    ((m.update token current channelOpen).2.2 = Except.ok ()) ∧
    ((m.update token current channelOpen).2.1 ≠ [] →
      (m.lookup token).isSome = true) ∧
    (∀ st, m.lookup token = some st →
      m.update token current channelOpen =
        (m.insert token { st with current := current },
         if channelOpen then
           [{ progressToken := token, progress := current, total := st.total }]
         else [],
         Except.ok ())) := by
  refine ⟨?_, ?_, ?_, ?_⟩
  · intro h
    unfold Tracker.update
    rw [h]
  · unfold Tracker.update
    split
    next => rfl
    next => rfl
  · unfold Tracker.update
    split
    next heq =>
        intro hne
        exact absurd rfl hne
    next st1 heq =>
        intro _
        rw [heq]
        rfl
  · intro st h
    unfold Tracker.update
    rw [h]

/-- Witness for C10: updating a token on an empty tracker is an accepted
no-op. -/
theorem c10_progress_update_witness :
    Tracker.update [] "ghost" 1 true = ([], [], Except.ok ()) :=
  (c10_progress_update [] "ghost" 1 true).1 rfl

end AMem
